import Mathlib

/-!
Shallow embedding of `caldp/create_previews.py` and verification of its
natural-language specification.

The module under study is orchestration glue: it classifies a FITS file by
header fields of header unit index 1, shells out to an external renderer
(`fitscut` for imaging, `make_hst_spec_previews` for spectra), and moves the
resulting artifacts to a local directory or an object-storage bucket.

Modelling conventions:
- Python strings are Lean `String`s; the handful of Python string operations
  the code uses (`strip`, `lower`, slicing, `split`, `join`, `startswith`,
  `endswith`) are re-implemented below on `List Char` so that everything
  evaluates inside the kernel.  All data handled by the program is ASCII.
- The external world (subprocess execution, directory listing) is a record of
  pure functions `Env`: one run of the program sees fixed, deterministic
  answers from the outside.
- The local filesystem is a map from path to file bytes, `FS`.
- Python exceptions are `Except` errors; machine integers do not overflow in
  this program (exit codes, sizes), so `Int` is used directly.
-/

/-- Python `str.strip()` (no argument): drop leading and trailing whitespace.
The data this program strips (FITS header values) is ASCII. -/
def pyStrip (s : String) : String :=
  (((s.data.dropWhile Char.isWhitespace).reverse.dropWhile Char.isWhitespace).reverse).asString

/-- Python `str.lower()` on one character (ASCII case folding). -/
def pyLowerChar (c : Char) : Char := c.toLower

/-- Python `str.lower()`. -/
def pyLower (s : String) : String := (s.data.map pyLowerChar).asString

/-- Python slicing `s[n:]` (by code point). -/
def pyDrop (n : Nat) (s : String) : String := (s.data.drop n).asString

/-- Python slicing `s[0:n]`: at most the first `n` code points. -/
def pyTake (n : Nat) (s : String) : String := (s.data.take n).asString

/-- Python `s.startswith(pre)`. -/
def pyStartsWith (s pre : String) : Bool := List.isPrefixOf pre.data s.data

/-- Python `s.endswith(suf)`. -/
def pyEndsWith (s suf : String) : Bool := List.isSuffixOf suf.data s.data

/-- Python `str.split(sep)` for a one-character separator, on character lists.
`"".split(sep)` is `[""]`, hence the base case produces one empty piece. -/
def pySplitChars (sep : Char) : List Char → List (List Char)
  | [] => [[]]
  | c :: cs =>
    if c = sep then [] :: pySplitChars sep cs
    else (c :: (pySplitChars sep cs).headD []) :: (pySplitChars sep cs).tail

/-- Python `str.split(sep)` for a one-character separator. -/
def pySplit (sep : Char) (s : String) : List String :=
  (pySplitChars sep s.data).map List.asString

/-- Python `sep.join(pieces)`. -/
def pyJoinSep (sep : String) : List String → String
  | [] => ""
  | [s] => s
  | s :: ss => s ++ sep ++ pyJoinSep sep ss

/-- `os.path.join` for two components (POSIX rules: an absolute second
component wins; otherwise insert a separator unless one is already there). -/
def pyJoin (a b : String) : String :=
  if pyStartsWith b "/" then b
  else if a = "" ∨ pyEndsWith a "/" then a ++ b
  else a ++ "/" ++ b

/-- `os.path.basename`: everything after the last path separator. -/
def os_basename (p : String) : String := (pySplit '/' p).getLastD ""

/-- Python string comparison `a <= b` on character lists: lexicographic by
code point. -/
def pyStrLeChars : List Char → List Char → Bool
  | [], _ => true
  | _ :: _, [] => false
  | a :: as, b :: bs =>
    if a.toNat < b.toNat then true
    else if b.toNat < a.toNat then false
    else pyStrLeChars as bs

/-- Python string comparison `a <= b`. -/
def pyStrLe (a b : String) : Bool := pyStrLeChars a.data b.data

/-- The ordering relation `sorted` uses on strings, as a proposition. -/
abbrev pyLeR (a b : String) : Prop := pyStrLe a b = true

/-- Python `sorted` on a list of strings: the ascending reordering under the
code-point lexicographic order (realised here by insertion sort; `sorted` is
stable, and on strings equal elements are identical, so any sorting
algorithm yields the same list). -/
def pySorted (l : List String) : List String := l.insertionSort pyLeR

-- -------------------------------------------------------------------------
-- Data model

/-- File contents, as bytes. -/
abbrev Bytes := List Nat

/-- The local filesystem: a map from path to the bytes stored there. -/
def FS := String → Option Bytes

/-- Writing a file (Python `open(path, "wb")` followed by `write`):
truncate/overwrite semantics. -/
def fsWrite (fs : FS) (p : String) (b : Bytes) : FS :=
  fun q => if q = p then some b else fs q

/-- Result of `subprocess.Popen(...).communicate()`: return code plus the
captured stdout and stderr byte streams. -/
structure ProcResult where
  returncode : Int
  stdout : Bytes
  stderr : Bytes
deriving Repr, DecidableEq

/-- The external world seen by one run: subprocess execution
(`subprocess.Popen` and `subprocess.call`) and directory listing
(`os.listdir`), all functions of their arguments — a deterministic
environment. -/
structure Env where
  run : List String → ProcResult
  call : List String → Int
  listdir : String → List String

/-- The header of FITS header-data unit index 1, restricted to the keys the
program reads.  A key whose value is `none` is absent and raises `KeyError`
on lookup. -/
structure Header where
  naxis : Option Int
  xtension : Option String
  extname : Option String
  instrume : Option String
deriving Repr, DecidableEq

/-- Python exceptions that can escape the header-reading block of
`generate_previews`: `hdul[1]` on a one-unit file and `filename_base[0]` on
an empty base name raise `IndexError`; a missing required key raises
`KeyError`. -/
inductive PyError
  | keyError
  | indexError
deriving Repr, DecidableEq

/-- The three possible outcomes of header classification. -/
inductive Classification
  | spectral
  | imaging
  | unknown
deriving Repr, DecidableEq

-- -------------------------------------------------------------------------
-- create_previews.py, function by function

/-- Lines 79–83 of `create_previews.py`:
`instr_char = hdul[1].header["INSTRUME"].strip()[0]` with any exception
(missing key, or empty stripped value) caught and replaced by
`filename_base[0]`; the result is then lower-cased.  The fallback itself
raises `IndexError` when `filename_base` is empty, outside any handler. -/
def instr_char (instrume : Option String) (filename_base : String) :
    Except PyError Char :=
  match instrume.bind (fun s => (pyStrip s).data.head?) with
  | some c => Except.ok (pyLowerChar c)
  | none =>
    match filename_base.data.head? with
    | some c => Except.ok (pyLowerChar c)
    | none => Except.error PyError.indexError

/-- Lines 74–92: read `NAXIS`, `XTENSION`, stripped `EXTNAME` and the
instrument character from header unit index 1, then evaluate the ordered
`if`/`elif`/`else` chain.  A missing unit raises `IndexError` and a missing
required key raises `KeyError`; both propagate uncaught. -/
def classify_header (hdu1 : Option Header) (filename_base : String) :
    Except PyError Classification := do
  let h ← match hdu1 with
    | some h => Except.ok h
    | none => Except.error PyError.indexError
  let naxis ← match h.naxis with
    | some v => Except.ok v
    | none => Except.error PyError.keyError
  let ext ← match h.xtension with
    | some v => Except.ok v
    | none => Except.error PyError.keyError
  let extname ← match h.extname with
    | some v => Except.ok (pyStrip v)
    | none => Except.error PyError.keyError
  let c ← instr_char h.instrume filename_base
  if naxis = 2 ∧ ext = "BINTABLE" ∧ extname ≠ "ASN" then
    Except.ok Classification.spectral
  else if naxis ≥ 2 ∧ ext = "IMAGE" ∧ c ≠ 'l' ∧ c ≠ 'o' then
    Except.ok Classification.imaging
  else
    Except.ok Classification.unknown

/-- Lines 27–36: the `fitscut` command line for one output profile
(`AUTOSCALE = 99.5` interpolated into the autoscale flag). -/
def fitscut_cmd (input_path : String) (size : Int) : List String :=
  ["fitscut", "--all", "--jpg", "--autoscale=99.5", "--asinh-scale",
   "--output-size=" ++ toString size, "--badpix", input_path]

/-- Lines 26–47 `generate_image_preview`: run `fitscut`; when the return
code is greater than zero, log an error and raise (modelled as
`Except.error`); otherwise write the captured stdout bytes to
`output_path` and return them. -/
def generate_image_preview (env : Env) (fs : FS)
    (input_path output_path : String) (size : Int) :
    Except Unit (FS × Bytes) :=
  let r := env.run (fitscut_cmd input_path size)
  if r.returncode > 0 then Except.error ()
  else Except.ok (fsWrite fs output_path r.stdout, r.stdout)

/-- `OUTPUT_FORMATS = [("_thumb", 128), ("", -1)]`. -/
def OUTPUT_FORMATS : List (String × Int) := [("_thumb", 128), ("", -1)]

/-- Lines 50–60 `generate_image_previews`: attempt each output profile in
turn; an exception from a profile is swallowed with a log line, a success
appends the profile's output path. -/
def generate_image_previews (env : Env) (fs : FS)
    (input_path preview_dir filename_base : String) : FS × List String :=
  OUTPUT_FORMATS.foldl
    (fun acc fmt =>
      let output_path := pyJoin preview_dir (filename_base ++ fmt.1 ++ ".jpg")
      match generate_image_preview env acc.1 input_path output_path fmt.2 with
      | Except.error _ => acc
      | Except.ok r => (r.1, acc.2 ++ [output_path]))
    (fs, [])

/-- Line 64: the spectral preview command line. -/
def spectral_cmd (preview_dir input_path : String) : List String :=
  ["make_hst_spec_previews", "-v", "-t", "png", "fits", "-o", preview_dir,
   input_path]

/-- Lines 63–71 `generate_spectral_previews`: run the spectral command; a
non-zero exit status logs a failure and returns the empty list, otherwise
the function returns `os.listdir(preview_dir)` — the bare entry names of
everything currently in the directory. -/
def generate_spectral_previews (env : Env) (input_path preview_dir : String) :
    List String :=
  if env.call (spectral_cmd preview_dir input_path) ≠ 0 then []
  else env.listdir preview_dir

/-- Lines 74–93 `generate_previews`: classify header unit index 1 and
dispatch to a renderer; the Unknown outcome logs a warning and returns the
empty list.  The filesystem is threaded through because the imaging branch
writes files. -/
def generate_previews (env : Env) (fs : FS)
    (input_path preview_dir filename_base : String) (hdu1 : Option Header) :
    Except PyError (FS × List String) :=
  match classify_header hdu1 filename_base with
  | Except.error e => Except.error e
  | Except.ok Classification.spectral =>
      Except.ok (fs, generate_spectral_previews env input_path preview_dir)
  | Except.ok Classification.imaging =>
      Except.ok (generate_image_previews env fs input_path preview_dir filename_base)
  | Except.ok Classification.unknown => Except.ok (fs, [])

/-- One glob component pattern of the shape `pf*suf` tested against one
directory entry: the entry decomposes as `pf ++ middle ++ suf`, and a
pattern whose component starts with the wildcard does not match hidden
files (names beginning with a dot). -/
def glob_match (pf suf name : String) : Bool :=
  pyStartsWith name pf && pyEndsWith (pyDrop pf.length name) suf &&
    !(pf == "" && pyStartsWith name ".")

/-- `glob.glob` over one directory modelled by its entry list: keep the
entries matching the component pattern `pf*suf`, in directory enumeration
order, each prefixed by the directory path (the patterns in the source are
built by string interpolation `dir ++ "/" ++ component`). -/
def glob_glob (entries : List String) (dir pf suf : String) : List String :=
  (entries.filter (glob_match pf suf)).map (fun n => dir ++ "/" ++ n)

/-- Lines 95–98 `get_inputs`: glob the data directory for
`ipppssoot.lower()[0:5]*.fits` and sort the matches. -/
def get_inputs (entries : List String) (ipppssoot data_dir : String) :
    List String :=
  pySorted (glob_glob entries data_dir (pyTake 5 (pyLower ipppssoot)) ".fits")

/-- Lines 100–105 `get_previews`: glob `*.png`, extend with the `*.jpg`
matches, and sort the concatenation as one list. -/
def get_previews (entries : List String) (preview_dir : String) :
    List String :=
  pySorted (glob_glob entries preview_dir "" ".png" ++
    glob_glob entries preview_dir "" ".jpg")

/-- Line 126 of `create_previews_local`: `glob.glob(indir + "/*.fits")`,
returned in raw enumeration order with no sort. -/
def local_input_paths (entries : List String) (indir : String) : List String :=
  glob_glob entries indir "" ".fits"

/-- Lines 113–116 of `upload_previews`: drop the first five characters of
the destination (the `s3://` scheme), split the remainder on `/`; the
bucket is the first piece and the key prefix is the remaining pieces joined
back with `/`. -/
def parse_output_uri (uri : String) : String × String :=
  let splits := pySplit '/' (pyDrop 5 uri)
  (splits.headD "", pyJoinSep "/" splits.tail)

/-- Line 119: the object key used for one preview file,
`objectname = path + "/" + file`. -/
def objectname (path file : String) : String := path ++ "/" ++ file

/-- Lines 107–122 `upload_previews`, as the list of (bucket, key) pairs
handed to the object-storage client, one per preview file. -/
def upload_previews (previews : List String) (uri : String) :
    List (String × String) :=
  let bp := parse_output_uri uri
  previews.map (fun preview => (bp.1, objectname bp.2 (os_basename preview)))

/-- Failure modes of `shutil.copy` relevant to this program. -/
inductive CopyError
  | sameFileError
  | otherError
deriving Repr, DecidableEq

/-- `shutil.copy` on the pure filesystem model: `SameFileError` when source
and destination are the same file (in this model, the same path — there are
no links), any other failure (here: a missing source) is some other
`OSError`. -/
def shutil_copy (fs : FS) (src dst : String) : Except CopyError FS :=
  if src = dst then Except.error CopyError.sameFileError
  else
    match fs src with
    | none => Except.error CopyError.otherError
    | some b => Except.ok (fsWrite fs dst b)

/-- Lines 134–141 of `create_previews_local`, transfer of one artifact:
`output_uri` joins the destination with the artifact's basename, and
`shutil.copy` is tried with exactly `SameFileError` suppressed (a no-op);
every other copy error propagates. -/
def local_copy_step (fs : FS) (output_path dest : String) :
    Except CopyError FS :=
  let output_uri := pyJoin dest (os_basename output_path)
  match shutil_copy fs output_path output_uri with
  | Except.error CopyError.sameFileError => Except.ok fs
  | Except.error CopyError.otherError => Except.error CopyError.otherError
  | Except.ok fs' => Except.ok fs'

-- -------------------------------------------------------------------------
-- Spec-side definitions, for comparison with the code

/-- The spec's ordered first-match rule list (section 4.1), written from the
spec's words on the already-extracted header fields: axis count, extension
type, stripped extension name, lower-cased first instrument character. -/
def spec_classification (naxis : Int) (exttype extname : String) (instr : Char) :
    Classification :=
  if naxis = 2 ∧ exttype = "BINTABLE" ∧ extname ≠ "ASN" then
    Classification.spectral
  else if naxis ≥ 2 ∧ exttype = "IMAGE" ∧ instr ≠ 'l' ∧ instr ≠ 'o' then
    Classification.imaging
  else
    Classification.unknown

/-- The spec's wording of `render_spectral` (section 4.2): on success the
produced sequence lists every file currently present in `output_dir`, as
paths to those files (directory joined with entry name). -/
def spec_render_spectral (env : Env) (input_path preview_dir : String) :
    List String :=
  if env.call (spectral_cmd preview_dir input_path) ≠ 0 then []
  else (env.listdir preview_dir).map (fun n => pyJoin preview_dir n)

-- -------------------------------------------------------------------------
-- Concrete environments and filesystems used by witnesses and
-- counterexamples

deriving instance DecidableEq for Except

/-- An environment in which every external command succeeds: `fitscut`
returns the bytes `[1, 2, 3]` on stdout, the spectral renderer exits 0, and
the preview directory holds one file. -/
def env_ok : Env :=
  { run := fun _ => { returncode := 0, stdout := [1, 2, 3], stderr := [] },
    call := fun _ => 0,
    listdir := fun _ => ["odfa01030_x1d.png"] }

/-- An environment in which the thumbnail `fitscut` invocation fails with
exit status 1 while the natural-size invocation succeeds. -/
def env_mixed : Env :=
  { run := fun cmd =>
      if cmd = fitscut_cmd "odfa01030/ia01010_flt.fits" 128 then
        { returncode := 1, stdout := [], stderr := [9, 9] }
      else
        { returncode := 0, stdout := [5, 5], stderr := [] },
    call := fun _ => 1,
    listdir := fun _ => [] }

/-- The empty filesystem. -/
def fs0 : FS := fun _ => none

/-- A filesystem holding exactly one file. -/
def fs_one : FS := fun p => if p = "/d/a.jpg" then some [7] else none

/-- Character-level join with the path separator, the proof-side mirror of
`pyJoinSep "/"`. -/
def joinSlash : List (List Char) → List Char
  | [] => []
  | [w] => w
  | w :: ws => w ++ '/' :: joinSlash ws

-- -------------------------------------------------------------------------
-- Claim theorems

/-- Claim C2, counterexample: on renderer success the spectral variant
returns `os.listdir` output — the bare entry names — not the paths of the
files in the output directory, so the claim's "sequence of produced paths"
reading (formalised by `spec_render_spectral`, following the spec's words)
fails at this concrete input. -/
theorem claim2_counterexample :
    generate_spectral_previews env_ok "odfa01030/odfa01030_x1d.fits"
        "odfa01030/previews" = ["odfa01030_x1d.png"] ∧
    spec_render_spectral env_ok "odfa01030/odfa01030_x1d.fits"
        "odfa01030/previews" = ["odfa01030/previews/odfa01030_x1d.png"] ∧
    generate_spectral_previews env_ok "odfa01030/odfa01030_x1d.fits"
        "odfa01030/previews" ≠
      spec_render_spectral env_ok "odfa01030/odfa01030_x1d.fits"
        "odfa01030/previews" := by
  refine ⟨by decide, by decide, ?_⟩
  decide

/-- Claim C2 (amended): on exit status zero the spectral variant returns
the directory listing of the output directory — every entry name currently
present, pre-existing files included; on non-zero exit status it returns
the empty sequence. -/
theorem claim2_spectral_listing (env : Env) (input_path preview_dir : String) :
    (env.call (spectral_cmd preview_dir input_path) = 0 →
      generate_spectral_previews env input_path preview_dir =
        env.listdir preview_dir) ∧
    (env.call (spectral_cmd preview_dir input_path) ≠ 0 →
      generate_spectral_previews env input_path preview_dir = []) := by
  unfold generate_spectral_previews
  constructor <;> intro h <;> simp [h]

/-- Claim C2, witness: the amended theorem applied in the all-success
environment. -/
theorem claim2_witness :
    generate_spectral_previews env_ok "odfa01030/odfa01030_x1d.fits"
      "odfa01030/previews" = ["odfa01030_x1d.png"] := by
  have h := (claim2_spectral_listing env_ok "odfa01030/odfa01030_x1d.fits"
    "odfa01030/previews").1 (by decide)
  rw [h]
  rfl

/-- Claim C4, counterexample: a header unit that lacks `NAXIS` makes
classification raise `KeyError`, which propagates — the input is not
treated as Unknown. -/
theorem claim4_counterexample :
    classify_header (some ⟨none, some "IMAGE", some "SCI", some "WFC3"⟩)
        "ia01010_flt" = Except.error PyError.keyError ∧
    classify_header (some ⟨none, some "IMAGE", some "SCI", some "WFC3"⟩)
        "ia01010_flt" ≠ Except.ok Classification.unknown ∧
    generate_previews env_ok fs0 "ia01010_flt.fits" "previews" "ia01010_flt"
        (some ⟨none, some "IMAGE", some "SCI", some "WFC3"⟩) =
      Except.error PyError.keyError := by
  refine ⟨by decide, by decide, ?_⟩
  rfl

/-- Claim C4 (amended): when header unit index 1 does not exist, or lacks
one of the required keys `NAXIS`, `XTENSION`, `EXTNAME`, classification
raises an uncaught error (IndexError for the missing unit, KeyError for a
missing key) and `generate_previews` propagates it — a hard failure, not
Unknown. -/
theorem claim4_missing_keys_raise (hdu1 : Option Header) (base : String)
    (h : hdu1 = none ∨ ∃ hd, hdu1 = some hd ∧
      (hd.naxis = none ∨ hd.xtension = none ∨ hd.extname = none)) :
    (∃ e, classify_header hdu1 base = Except.error e) ∧
    ∀ env fs input_path preview_dir,
      ∃ e, generate_previews env fs input_path preview_dir base hdu1 =
        Except.error e := by
  have hcls : ∃ e, classify_header hdu1 base = Except.error e := by
    rcases h with rfl | ⟨hd, rfl, hmiss⟩
    · exact ⟨PyError.indexError, rfl⟩
    · rcases hd with ⟨naxis, xtension, extname, instrume⟩
      rcases hmiss with hn | hx | he
      · cases hn
        exact ⟨PyError.keyError, rfl⟩
      · cases hx
        rcases naxis with _ | n
        · exact ⟨PyError.keyError, rfl⟩
        · exact ⟨PyError.keyError, rfl⟩
      · cases he
        rcases naxis with _ | n <;> rcases xtension with _ | x
        · exact ⟨PyError.keyError, rfl⟩
        · exact ⟨PyError.keyError, rfl⟩
        · exact ⟨PyError.keyError, rfl⟩
        · exact ⟨PyError.keyError, rfl⟩
  refine ⟨hcls, ?_⟩
  intro env fs input_path preview_dir
  obtain ⟨e, he⟩ := hcls
  exact ⟨e, by unfold generate_previews; rw [he]⟩

/-- Claim C4, witness: the amended theorem applied to a header missing
`NAXIS`. -/
theorem claim4_witness :
    ∃ e, classify_header
      (some ⟨none, some "IMAGE", some "SCI", some "WFC3"⟩) "ia01010_flt" =
        Except.error e :=
  (claim4_missing_keys_raise
    (some ⟨none, some "IMAGE", some "SCI", some "WFC3"⟩) "ia01010_flt"
    (Or.inr ⟨_, rfl, Or.inl rfl⟩)).1

/-- Claim C5: the two fixed output profiles (`_thumb` at size 128, then the
empty suffix at natural size -1) are attempted independently.  A profile
whose `fitscut` run exits with status greater than zero contributes no
artifact and leaves its output path untouched, without stopping the other
profile; a successful profile writes the captured stdout bytes to
`preview_dir/filename_base<suffix>.jpg` and appends that path.  The
returned sequence therefore has between 0 and 2 elements. -/
theorem claim5_profiles_independent (env : Env) (fs : FS)
    (input_path preview_dir filename_base : String)
    (hne : pyJoin preview_dir (filename_base ++ "_thumb" ++ ".jpg") ≠
      pyJoin preview_dir (filename_base ++ ".jpg")) :
    (generate_image_previews env fs input_path preview_dir filename_base).2 =
      (if (env.run (fitscut_cmd input_path 128)).returncode > 0 then []
        else [pyJoin preview_dir (filename_base ++ "_thumb" ++ ".jpg")]) ++
      (if (env.run (fitscut_cmd input_path (-1))).returncode > 0 then []
        else [pyJoin preview_dir (filename_base ++ ".jpg")]) ∧
    (generate_image_previews env fs input_path preview_dir filename_base).2.length ≤ 2 ∧
    ((env.run (fitscut_cmd input_path 128)).returncode > 0 →
      (generate_image_previews env fs input_path preview_dir filename_base).1
          (pyJoin preview_dir (filename_base ++ "_thumb" ++ ".jpg")) =
        fs (pyJoin preview_dir (filename_base ++ "_thumb" ++ ".jpg"))) ∧
    (¬ (env.run (fitscut_cmd input_path 128)).returncode > 0 →
      (generate_image_previews env fs input_path preview_dir filename_base).1
          (pyJoin preview_dir (filename_base ++ "_thumb" ++ ".jpg")) =
        some (env.run (fitscut_cmd input_path 128)).stdout) ∧
    ((env.run (fitscut_cmd input_path (-1))).returncode > 0 →
      (generate_image_previews env fs input_path preview_dir filename_base).1
          (pyJoin preview_dir (filename_base ++ ".jpg")) =
        fs (pyJoin preview_dir (filename_base ++ ".jpg"))) ∧
    (¬ (env.run (fitscut_cmd input_path (-1))).returncode > 0 →
      (generate_image_previews env fs input_path preview_dir filename_base).1
          (pyJoin preview_dir (filename_base ++ ".jpg")) =
        some (env.run (fitscut_cmd input_path (-1))).stdout) := by
  unfold generate_image_previews OUTPUT_FORMATS generate_image_preview
  by_cases h1 : (env.run (fitscut_cmd input_path 128)).returncode > 0 <;>
    by_cases h2 : (env.run (fitscut_cmd input_path (-1))).returncode > 0 <;>
      simp [h1, h2, fsWrite, hne, Ne.symm hne]

/-- Claim C5, witness: in the environment where the thumbnail run fails
with status 1 and the natural-size run succeeds, only the natural-size
artifact is produced. -/
theorem claim5_witness :
    (generate_image_previews env_mixed fs0 "odfa01030/ia01010_flt.fits"
        "odfa01030/previews" "ia01010_flt").2 =
      [pyJoin "odfa01030/previews" ("ia01010_flt" ++ ".jpg")] := by
  have h := (claim5_profiles_independent env_mixed fs0
    "odfa01030/ia01010_flt.fits" "odfa01030/previews" "ia01010_flt"
    (by decide)).1
  rw [h]
  decide

/-- Claim C6: in the local transfer flow, when the destination resolves to
the source file itself the copy is a suppressed no-op (the filesystem is
unchanged and no error escapes), while any other copy error — here a
missing source — propagates uncaught. -/
theorem claim6_samefile_suppressed (fs : FS) (output_path dest : String) :
    (pyJoin dest (os_basename output_path) = output_path →
      local_copy_step fs output_path dest = Except.ok fs) ∧
    (pyJoin dest (os_basename output_path) ≠ output_path →
      fs output_path = none →
      local_copy_step fs output_path dest = Except.error CopyError.otherError) := by
  constructor
  · intro hsame
    simp only [local_copy_step, shutil_copy, hsame]
    simp
  · intro hne hmiss
    simp only [local_copy_step, shutil_copy]
    simp [Ne.symm hne, hmiss]

/-- Claim C6, witness: copying `/d/a.jpg` to destination directory `/d`
resolves to the identical file and is a no-op. -/
theorem claim6_witness :
    local_copy_step fs_one "/d/a.jpg" "/d" = Except.ok fs_one :=
  (claim6_samefile_suppressed fs_one "/d/a.jpg" "/d").1 (by decide)

/-- Claim C8: when the `INSTRUME` key is missing or its stripped value is
empty, the instrument character used by classification defaults to the
first character of the derived base name, lower-cased. -/
theorem claim8_instr_default (instrume : Option String) (base : String)
    (c : Char)
    (h : instrume = none ∨ ∃ s, instrume = some s ∧ pyStrip s = "")
    (hb : base.data.head? = some c) :
    instr_char instrume base = Except.ok (pyLowerChar c) := by
  unfold instr_char
  rcases h with rfl | ⟨s, rfl, hs⟩
  · simp [hb]
  · simp [hs, hb]

/-- Claim C8, witness: a blank `INSTRUME` value and base name `odfa01030`
yield the instrument character `o`. -/
theorem claim8_witness :
    instr_char (some "   ") "odfa01030" = Except.ok 'o' := by
  have h := claim8_instr_default (some "   ") "odfa01030" 'o'
    (Or.inr ⟨"   ", rfl, by decide⟩) (by decide)
  rw [h]
  rfl

/-- Claim C9: imaging rendering is idempotent — with the renderer modelled
as a deterministic function of its command line, running
`generate_image_previews` a second time over the filesystem produced by the
first run returns the same artifact paths and leaves every file's bytes
exactly as after the first run. -/
theorem claim9_imaging_idempotent (env : Env) (fs : FS)
    (input_path preview_dir filename_base : String) :
    (generate_image_previews env
        (generate_image_previews env fs input_path preview_dir filename_base).1
        input_path preview_dir filename_base).2 =
      (generate_image_previews env fs input_path preview_dir filename_base).2 ∧
    ∀ q,
      (generate_image_previews env
          (generate_image_previews env fs input_path preview_dir filename_base).1
          input_path preview_dir filename_base).1 q =
        (generate_image_previews env fs input_path preview_dir filename_base).1 q := by
  unfold generate_image_previews OUTPUT_FORMATS generate_image_preview
  by_cases h1 : (env.run (fitscut_cmd input_path 128)).returncode > 0 <;>
    by_cases h2 : (env.run (fitscut_cmd input_path (-1))).returncode > 0 <;>
      simp [h1, h2, fsWrite]
  all_goals
    intro q
    by_cases hq2 : q = pyJoin preview_dir (filename_base ++ ".jpg") <;>
      by_cases hq1 : q = pyJoin preview_dir (filename_base ++ "_thumb" ++ ".jpg") <;>
        simp [hq1, hq2]

/-- Claim C1: for every input whose header unit index 1 provides the
required fields, classification equals the spec's ordered first-match rule
list over those fields (`spec_classification`, on NAXIS, the extension
type, the stripped extension name and the lower-cased instrument
character), and `generate_previews` dispatches on the outcome: Spectral
runs the spectral renderer, Imaging runs the imaging renderer, and Unknown
logs a warning and returns the empty sequence. -/
theorem claim1_classification_rules (env : Env) (fs : FS)
    (input_path preview_dir base : String) (hd : Header)
    (n : Int) (x e : String) (c : Char)
    (hn : hd.naxis = some n) (hx : hd.xtension = some x)
    (he : hd.extname = some e)
    (hc : instr_char hd.instrume base = Except.ok c) :
    classify_header (some hd) base =
      Except.ok (spec_classification n x (pyStrip e) c) ∧
    (spec_classification n x (pyStrip e) c = Classification.spectral →
      generate_previews env fs input_path preview_dir base (some hd) =
        Except.ok (fs, generate_spectral_previews env input_path preview_dir)) ∧
    (spec_classification n x (pyStrip e) c = Classification.imaging →
      generate_previews env fs input_path preview_dir base (some hd) =
        Except.ok (generate_image_previews env fs input_path preview_dir base)) ∧
    (spec_classification n x (pyStrip e) c = Classification.unknown →
      generate_previews env fs input_path preview_dir base (some hd) =
        Except.ok (fs, [])) := by
  obtain ⟨naxis, xtension, extname, instrume⟩ := hd
  simp only at hn hx he hc
  subst hn
  subst hx
  subst he
  have hch : classify_header
      (some ⟨some n, some x, some e, instrume⟩) base =
      Except.ok (spec_classification n x (pyStrip e) c) := by
    unfold classify_header spec_classification
    simp only [Bind.bind, Except.bind, hc, apply_ite Except.ok]
  refine ⟨hch, ?_, ?_, ?_⟩ <;> intro hcl <;>
    unfold generate_previews <;> rw [hch, hcl]

/-- Claim C1, witness: a BINTABLE header with extension name `SCI` is
classified Spectral and the spectral renderer's product is returned. -/
theorem claim1_witness :
    classify_header
        (some ⟨some 2, some "BINTABLE", some "SCI", some "STIS"⟩)
        "odfa01030_x1d" =
      Except.ok (spec_classification 2 "BINTABLE" (pyStrip "SCI") 's') ∧
    generate_previews env_ok fs0 "odfa01030_x1d.fits" "odfa01030/previews"
        "odfa01030_x1d"
        (some ⟨some 2, some "BINTABLE", some "SCI", some "STIS"⟩) =
      Except.ok (fs0, ["odfa01030_x1d.png"]) := by
  have h := claim1_classification_rules env_ok fs0 "odfa01030_x1d.fits"
    "odfa01030/previews" "odfa01030_x1d"
    ⟨some 2, some "BINTABLE", some "SCI", some "STIS"⟩ 2 "BINTABLE" "SCI" 's'
    rfl rfl rfl (by decide)
  refine ⟨h.1, ?_⟩
  have h2 := h.2.1 (by decide)
  rw [h2]
  rfl

/-- A character is determined by its code point. -/
theorem char_toNat_inj {a b : Char} (h : a.toNat = b.toNat) : a = b := by
  exact_mod_cast Char.ofNat_toNat a ▸ Char.ofNat_toNat b ▸ congrArg Char.ofNat h

/-- The Python string order is total. -/
theorem pyStrLeChars_total (as bs : List Char) :
    pyStrLeChars as bs = true ∨ pyStrLeChars bs as = true := by
  induction as generalizing bs with
  | nil => left; rfl
  | cons a as ih =>
    cases bs with
    | nil => right; rfl
    | cons b bs =>
      unfold pyStrLeChars
      rcases Nat.lt_trichotomy a.toNat b.toNat with h | h | h
      · left; simp [h]
      · rcases ih bs with ih1 | ih1
        · left; simp [h, ih1]
        · right; simp [h.symm, ih1]
      · right; simp [h]

/-- The Python string order is transitive. -/
theorem pyStrLeChars_trans (as bs cs : List Char)
    (h1 : pyStrLeChars as bs = true) (h2 : pyStrLeChars bs cs = true) :
    pyStrLeChars as cs = true := by
  induction as generalizing bs cs with
  | nil => rfl
  | cons a as ih =>
    cases bs with
    | nil => simp [pyStrLeChars] at h1
    | cons b bs =>
      cases cs with
      | nil => simp [pyStrLeChars] at h2
      | cons c cs =>
        unfold pyStrLeChars at h1 h2 ⊢
        rcases Nat.lt_trichotomy a.toNat b.toNat with hab | hab | hab
        · rcases Nat.lt_trichotomy b.toNat c.toNat with hbc | hbc | hbc
          · simp [show a.toNat < c.toNat by omega]
          · simp [show a.toNat < c.toNat by omega]
          · simp [show ¬ b.toNat < c.toNat by omega,
              show c.toNat < b.toNat by omega] at h2
        · rcases Nat.lt_trichotomy b.toNat c.toNat with hbc | hbc | hbc
          · simp [show a.toNat < c.toNat by omega]
          · simp [show ¬ a.toNat < b.toNat by omega,
              show ¬ b.toNat < a.toNat by omega] at h1
            simp [show ¬ b.toNat < c.toNat by omega,
              show ¬ c.toNat < b.toNat by omega] at h2
            simp [show ¬ a.toNat < c.toNat by omega,
              show ¬ c.toNat < a.toNat by omega]
            exact ih bs cs h1 h2
          · simp [show ¬ b.toNat < c.toNat by omega,
              show c.toNat < b.toNat by omega] at h2
        · simp [show ¬ a.toNat < b.toNat by omega,
            show b.toNat < a.toNat by omega] at h1

/-- The Python string order is antisymmetric. -/
theorem pyStrLeChars_antisymm (as bs : List Char)
    (h1 : pyStrLeChars as bs = true) (h2 : pyStrLeChars bs as = true) :
    as = bs := by
  induction as generalizing bs with
  | nil =>
    cases bs with
    | nil => rfl
    | cons b bs => simp [pyStrLeChars] at h2
  | cons a as ih =>
    cases bs with
    | nil => simp [pyStrLeChars] at h1
    | cons b bs =>
      unfold pyStrLeChars at h1 h2
      rcases Nat.lt_trichotomy a.toNat b.toNat with hab | hab | hab
      · simp [show ¬ b.toNat < a.toNat by omega,
          show a.toNat < b.toNat by omega] at h2
      · have heq : a = b := char_toNat_inj hab
        subst heq
        simp [show ¬ a.toNat < a.toNat by omega] at h1 h2
        rw [ih bs h1 h2]
      · simp [show ¬ a.toNat < b.toNat by omega,
          show b.toNat < a.toNat by omega] at h1

/-- `pySorted` produces a list sorted under the Python string order. -/
theorem pySorted_sorted (l : List String) : List.Sorted pyLeR (pySorted l) := by
  haveI : IsTotal String pyLeR :=
    ⟨fun a b => pyStrLeChars_total a.data b.data⟩
  haveI : IsTrans String pyLeR :=
    ⟨fun a b c h1 h2 => pyStrLeChars_trans a.data b.data c.data h1 h2⟩
  exact List.sorted_insertionSort pyLeR l

/-- `pySorted` permutes its input. -/
theorem pySorted_perm (l : List String) : List.Perm (pySorted l) l :=
  List.perm_insertionSort pyLeR l

/-- Antisymmetry of the Python string order, at the string level. -/
theorem pyLeR_antisymm (a b : String) (h1 : pyLeR a b) (h2 : pyLeR b a) :
    a = b :=
  String.ext (pyStrLeChars_antisymm a.data b.data h1 h2)

/-- Claim C7: for every preview-directory state, `get_previews` returns
exactly the entries matching `*.png` concatenated with those matching
`*.jpg`, sorted lexicographically as one sequence: the result is sorted, is
a permutation of the two glob result lists concatenated, and contains
precisely their members. -/
theorem claim7_get_previews_sorted (entries : List String)
    (preview_dir : String) :
    List.Sorted pyLeR (get_previews entries preview_dir) ∧
    List.Perm (get_previews entries preview_dir)
      (glob_glob entries preview_dir "" ".png" ++
        glob_glob entries preview_dir "" ".jpg") ∧
    ∀ p, p ∈ get_previews entries preview_dir ↔
      (p ∈ glob_glob entries preview_dir "" ".png" ∨
        p ∈ glob_glob entries preview_dir "" ".jpg") := by
  refine ⟨pySorted_sorted _, pySorted_perm _, fun p => ?_⟩
  unfold get_previews
  rw [(pySorted_perm _).mem_iff, List.mem_append]

/-- Claim C10: in object-storage mode, `get_inputs` returns the entries of
the data directory matching `<first five lower-cased identifier
characters>*.fits` in sorted order, and the result is independent of the
enumeration order of the directory (any permutation of the entry list
yields the same output); local-mode enumeration, by contrast, keeps the
raw glob order with no sort. -/
theorem claim10_get_inputs_sorted (entries entries' : List String)
    (ipppssoot data_dir : String) (hperm : List.Perm entries entries') :
    List.Sorted pyLeR (get_inputs entries ipppssoot data_dir) ∧
    List.Perm (get_inputs entries ipppssoot data_dir)
      (glob_glob entries data_dir (pyTake 5 (pyLower ipppssoot)) ".fits") ∧
    get_inputs entries ipppssoot data_dir =
      get_inputs entries' ipppssoot data_dir ∧
    local_input_paths ["b.fits", "a.fits"] "/d" = ["/d/b.fits", "/d/a.fits"] ∧
    ¬ List.Sorted pyLeR (local_input_paths ["b.fits", "a.fits"] "/d") := by
  haveI : IsAntisymm String pyLeR := ⟨pyLeR_antisymm⟩
  refine ⟨pySorted_sorted _, pySorted_perm _, ?_, by decide, by decide⟩
  refine List.eq_of_perm_of_sorted ?_ (pySorted_sorted _) (pySorted_sorted _)
  exact (pySorted_perm _).trans
    (((hperm.filter _).map _).trans (pySorted_perm _).symm)

/-- Claim C10, witness: two enumeration orders of the same directory give
the same sorted input list. -/
theorem claim10_witness :
    get_inputs ["odfa0b.fits", "odfa0a.fits"] "ODFA01030" "/d" =
      get_inputs ["odfa0a.fits", "odfa0b.fits"] "ODFA01030" "/d" :=
  (claim10_get_inputs_sorted ["odfa0b.fits", "odfa0a.fits"]
    ["odfa0a.fits", "odfa0b.fits"] "ODFA01030" "/d" (by decide)).2.2.1

/-- Converting a string's characters back to a string is the identity. -/
theorem asString_data (s : String) : List.asString s.data = s :=
  String.asString_toList s

/-- The characters of `List.asString` are the original list. -/
theorem data_asString (l : List Char) : (List.asString l).data = l :=
  List.toList_asString l

/-- `pySplitChars` never returns the empty list of pieces. -/
theorem pySplitChars_ne_nil (sep : Char) (l : List Char) :
    pySplitChars sep l ≠ [] := by
  cases l with
  | nil => simp [pySplitChars]
  | cons c cs =>
    unfold pySplitChars
    by_cases h : c = sep <;> simp [h]

/-- Splitting a separator-free chunk followed by a separator and a
remainder peels off the chunk. -/
theorem pySplitChars_append (sep : Char) (xs ys : List Char) (h : sep ∉ xs) :
    pySplitChars sep (xs ++ sep :: ys) = xs :: pySplitChars sep ys := by
  induction xs with
  | nil => simp [pySplitChars]
  | cons x xs ih =>
    have hx : ¬x = sep := fun hxx => h (hxx ▸ List.mem_cons_self x xs)
    have h2 : sep ∉ xs := fun hm => h (List.mem_cons_of_mem _ hm)
    have hstep : pySplitChars sep (x :: (xs ++ sep :: ys)) =
        (x :: (pySplitChars sep (xs ++ sep :: ys)).headD []) ::
          (pySplitChars sep (xs ++ sep :: ys)).tail := by
      rw [pySplitChars.eq_def]
      simp [hx]
    rw [List.cons_append, hstep, ih h2]
    simp

/-- Joining with the separator undoes `pySplitChars`. -/
theorem joinSlash_pySplitChars (l : List Char) :
    joinSlash (pySplitChars '/' l) = l := by
  induction l with
  | nil => rfl
  | cons c cs ih =>
    unfold pySplitChars
    by_cases h : c = '/'
    · subst h
      simp only [if_pos rfl]
      cases hs : pySplitChars '/' cs with
      | nil => exact absurd hs (pySplitChars_ne_nil _ _)
      | cons w ws =>
        rw [hs] at ih
        simp [joinSlash, ih]
    · simp only [if_neg h]
      cases hs : pySplitChars '/' cs with
      | nil => exact absurd hs (pySplitChars_ne_nil _ _)
      | cons w ws =>
        rw [hs] at ih
        cases ws with
        | nil => simpa [joinSlash] using congrArg (c :: ·) ih
        | cons w2 ws2 => simpa [joinSlash] using congrArg (c :: ·) ih

/-- `pyJoinSep "/"` over strings mirrors the character-level join. -/
theorem pyJoinSep_map_asString (ws : List (List Char)) :
    pyJoinSep "/" (ws.map List.asString) = List.asString (joinSlash ws) := by
  induction ws with
  | nil => rfl
  | cons w ws ih =>
    cases ws with
    | nil => rfl
    | cons w2 ws2 =>
      simp only [List.map_cons] at ih ⊢
      unfold pyJoinSep
      rw [ih]
      apply String.ext
      simp [String.data_append, data_asString, joinSlash]

/-- Claim C3, counterexample: at the spec's own scenario destination, which
ends with a path separator, the code's key prefix keeps the trailing slash
(`data/stis/odfa01030/previews/`, not `data/stis/odfa01030/previews`), and
the object key concatenation inserts a second separator, producing a
double-slash key. -/
theorem claim3_counterexample :
    parse_output_uri "s3://hstdp-batch-outputs/data/stis/odfa01030/previews/" =
      ("hstdp-batch-outputs", "data/stis/odfa01030/previews/") ∧
    upload_previews ["./odfa01030/previews/x1d_thumb.png"]
        "s3://hstdp-batch-outputs/data/stis/odfa01030/previews/" =
      [("hstdp-batch-outputs",
        "data/stis/odfa01030/previews//x1d_thumb.png")] ∧
    ("data/stis/odfa01030/previews/" : String) ≠
      "data/stis/odfa01030/previews" ∧
    ("data/stis/odfa01030/previews//x1d_thumb.png" : String) ≠
      "data/stis/odfa01030/previews/x1d_thumb.png" := by
  exact ⟨by decide, by decide, by decide, by decide⟩

/-- Claim C3 (amended): for a destination of the form
`s3://<bucket>/<remainder>`, the transfer layer resolves the bucket to the
first segment after the scheme and the key prefix to the whole remainder —
including any trailing slash — and uploads each artifact to the key
`<key-prefix> ++ "/" ++ basename`; when the destination ends with a slash
the keys therefore contain a double slash. -/
theorem claim3_upload_keys (bucket rest : String) (previews : List String)
    (hb : ('/' : Char) ∉ bucket.data) :
    parse_output_uri ("s3://" ++ bucket ++ "/" ++ rest) = (bucket, rest) ∧
    upload_previews previews ("s3://" ++ bucket ++ "/" ++ rest) =
      previews.map
        (fun preview => (bucket, rest ++ "/" ++ os_basename preview)) := by
  have hdata : ("s3://" ++ bucket ++ "/" ++ rest).data =
      's' :: '3' :: ':' :: '/' :: '/' :: (bucket.data ++ '/' :: rest.data) := by
    have h0 : ("s3://" : String).data = ['s', '3', ':', '/', '/'] := rfl
    have h1 : ("/" : String).data = ['/'] := rfl
    simp [String.data_append, h0, h1]
  have hparse : parse_output_uri ("s3://" ++ bucket ++ "/" ++ rest) =
      (bucket, rest) := by
    unfold parse_output_uri pySplit pyDrop
    rw [hdata]
    simp only [List.drop_succ_cons, List.drop_zero]
    rw [data_asString, pySplitChars_append '/' bucket.data rest.data hb]
    simp only [List.map_cons, List.headD_cons, List.tail_cons]
    rw [asString_data, pyJoinSep_map_asString, joinSlash_pySplitChars,
      asString_data]
  refine ⟨hparse, ?_⟩
  unfold upload_previews objectname
  rw [hparse]

/-- Claim C3, witness: the general key theorem applied at the scenario
destination, exhibiting the retained trailing slash. -/
theorem claim3_witness :
    parse_output_uri
        ("s3://" ++ "hstdp-batch-outputs" ++ "/" ++
          "data/stis/odfa01030/previews/") =
      ("hstdp-batch-outputs", "data/stis/odfa01030/previews/") :=
  (claim3_upload_keys "hstdp-batch-outputs" "data/stis/odfa01030/previews/"
    ["./odfa01030/previews/x1d_thumb.png"] (by decide)).1
